import Mathlib

/-!
Verification of the Google Agent Engine plugin adapters.

This file is a shallow embedding of the four Python source files of the
repository:

* `python-lib/googleagentengine/utils.py`: credential resolution, agent-card
  fetching, and the A2A query/response flattening;
* `python-agents/a2a/agent.py`: the A2A adapter (`A2AAgent.aprocess`) and its
  two inference pipelines;
* `python-agents/agent-engine-integration/agent.py`: the reasoning-engine
  adapter (`MyLLM.process`);
* `resource/get_agent_choices.py`: the configuration-discovery endpoint.

External vendor calls (the Dataiku API, `httpx`, the `google.oauth2` and `a2a`
client libraries, `json.loads`) are modelled as explicit function parameters
("deps"); fallible Python code is modelled with `Except`.  Python exceptions
are represented by the `AgentError` inductive, whose constructor names follow
the error taxonomy of the design spec (`ConfigurationError`, `ParseError`,
`NetworkError`, ...) together with constructors for the built-in Python
exception classes that can escape an adapter (`KeyError`, `IndexError`,
`AttributeError`).  The explicit `raise ValueError(...)` sites of the source,
as well as the implicit failures of `list.index` (a `ValueError` in Python)
and of an out-of-range list subscript while parsing a resource name (an
`IndexError` in Python), all report missing or invalid configuration fields
and are mapped to `AgentError.configurationError`; `json.loads` failures
(`json.JSONDecodeError`) are mapped to `AgentError.parseError`, matching the
spec, which lists `ParseError` as a separate kind for malformed JSON.
-/

deriving instance DecidableEq for Except

/-- Python exception values observable in this system.  The payload is the
string rendering `str(e)` of the exception. -/
inductive AgentError where
  | configurationError (msg : String)
  | parseError (msg : String)
  | networkError (msg : String)
  | authError (msg : String)
  | keyError (msg : String)
  | indexError (msg : String)
  | attributeError (msg : String)
deriving Repr, DecidableEq

/-- Python `str(e)` of an exception: its message. -/
def AgentError.str : AgentError → String
  | configurationError m => m
  | parseError m => m
  | networkError m => m
  | authError m => m
  | keyError m => m
  | indexError m => m
  | attributeError m => m

/-- Connection descriptor from the host platform, as read by
`get_credentials_from_vertexai_connection` (utils.py lines 41-62).  The
resolved connection parameters dictionary is flattened into a record:
`authType` is required by the source (subscripted unconditionally), the key
material fields are presence-tested with `in`, and the nested
`resolvedOAuth2Credential.accessToken` lookup is flattened into one optional
field. -/
structure ConnectionInfo where
  authType : String
  appSecretContent : Option String
  keyPath : Option String
  resolvedOAuth2AccessToken : Option String
deriving Repr, DecidableEq

/-- Parsed service-account key record, the result of `json.loads(keyRaw)`:
a JSON object abstracted as a field list. -/
structure ServiceAccountKey where
  info : List (String × String)
deriving Repr, DecidableEq

/-- Google credential object: either a service-account credential built from a
key record, or a bearer credential built from an OAuth access token. -/
inductive GcpCredentials where
  | serviceAccount (key : ServiceAccountKey)
  | oauth (accessToken : String)
deriving Repr, DecidableEq

/-- `get_credentials_from_vertexai_connection` (utils.py lines 29-68; the same
logic is duplicated verbatim as `_get_credentials` in
agent-engine-integration/agent.py and resource/get_agent_choices.py).
`jsonLoads` models `json.loads` composed with
`service_account.Credentials.from_service_account_info`; its failures are
`json.JSONDecodeError`, mapped to `AgentError.parseError`. -/
def get_credentials_from_vertexai_connection
    (jsonLoads : String → Except String ServiceAccountKey)
    (connection_info : ConnectionInfo) : Except AgentError GcpCredentials :=
  if connection_info.authType = "KEYPAIR" then
    match connection_info.appSecretContent, connection_info.keyPath with
    | none, none =>
        Except.error (AgentError.configurationError
          ("No keypair found in connection. Please refer to DSS Service Account Auth documentation."))
    | some keyRaw, _ =>
        match jsonLoads keyRaw with
        | Except.error m => Except.error (AgentError.parseError m)
        | Except.ok key => Except.ok (GcpCredentials.serviceAccount key)
    | none, some keyRaw =>
        match jsonLoads keyRaw with
        | Except.error m => Except.error (AgentError.parseError m)
        | Except.ok key => Except.ok (GcpCredentials.serviceAccount key)
  else if connection_info.authType = "OAUTH" then
    match connection_info.resolvedOAuth2AccessToken with
    | none =>
        Except.error (AgentError.configurationError
          ("No accessToken found in connection. Please refer to DSS OAuth2 credentials documentation."))
    | some accessToken => Except.ok (GcpCredentials.oauth accessToken)
  else
    Except.error (AgentError.configurationError
      ("Unsupported authentication type " ++ connection_info.authType ++ "."))

/-- First index of `x` in a list, starting the count at `n`: the recursion
behind Python `list.index`. -/
def listIndexAux (x : String) : List String → Nat → Option Nat
  | [], _ => none
  | y :: ys, n => if y = x then some n else listIndexAux x ys (n + 1)

/-- Python `parts.index(x)`: first index of `x`, raising `ValueError` when `x`
is absent.  The error reports a missing expected path segment, a
`ConfigurationError` in the taxonomy of the spec. -/
def pyIndex (parts : List String) (x : String) : Except AgentError Nat :=
  match listIndexAux x parts 0 with
  | some i => Except.ok i
  | none => Except.error (AgentError.configurationError (x ++ " is not in list"))

/-- Python `parts[i]` for a non-negative index: raises `IndexError` when out
of range.  In `get_vertexai_agent_card` this can only happen while extracting
the value following a path keyword of the resource name, again a missing
configuration field, a `ConfigurationError` in the taxonomy of the spec. -/
def pyGet (parts : List String) (i : Nat) : Except AgentError String :=
  if h : i < parts.length then Except.ok (parts.get ⟨i, h⟩)
  else Except.error (AgentError.configurationError ("list index out of range"))

/-- Agent card: the capability descriptor.  `url` and the other source JSON
fields are kept; `fields` abstracts the remaining JSON content. -/
structure AgentCard where
  url : String
  name : String
  fields : List (String × String)
deriving Repr, DecidableEq

/-- One entry of `reasoning_engine_response.spec.classMethods`: the key
`a2a_agent_card` may be present (with a string value) or absent. -/
structure ClassMethod where
  a2a_agent_card : Option String
deriving Repr, DecidableEq

/-- The `spec` object of the metadata response; the `classMethods` key may be
absent. -/
structure EngineSpec where
  classMethods : Option (List ClassMethod)
deriving Repr, DecidableEq

/-- Reasoning-engine metadata response; the `spec` key may be absent. -/
structure MetadataResponse where
  spec : Option EngineSpec
deriving Repr, DecidableEq

/-- First `a2a_agent_card` value among the class methods (utils.py
lines 111-116): `None` when `spec` or `classMethods` is absent or no entry
carries the key. -/
def findFirstCard : List ClassMethod → Option String
  | [] => none
  | m :: ms =>
    match m.a2a_agent_card with
    | some s => some s
    | none => findFirstCard ms

/-- Scan of the metadata response for the embedded agent-card string. -/
def findAgentCardStr (resp : MetadataResponse) : Option String :=
  match resp.spec with
  | none => none
  | some sp =>
    match sp.classMethods with
    | none => none
    | some methods => findFirstCard methods

/-- Splitting a character list on the slash character, accumulating the
current segment in reverse: the recursion behind Python `str.split('/')`. -/
def splitSlashAux : List Char → List Char → List (List Char)
  | [], acc => [acc.reverse]
  | c :: cs, acc =>
    if c = '/' then acc.reverse :: splitSlashAux cs []
    else splitSlashAux cs (c :: acc)

/-- Python `s.split('/')`: always non-empty, `[""]` on the empty string. -/
def pySplitSlash (s : String) : List String :=
  (splitSlashAux s.data []).map (fun cs => String.mk cs)

/-- Python `s.strip()`: drop leading and trailing whitespace. -/
def pyStrip (s : String) : String :=
  String.mk
    (((s.data.dropWhile Char.isWhitespace).reverse.dropWhile Char.isWhitespace).reverse)

/-- Reading the values following the `projects`, `locations` and
`reasoningEngines` keywords from the split resource name (utils.py
lines 89-91). -/
def parseParts (parts : List String) :
    Except AgentError (String × String × String) :=
  match pyIndex parts ("projects") with
  | Except.error e => Except.error e
  | Except.ok i =>
  match pyGet parts (i + 1) with
  | Except.error e => Except.error e
  | Except.ok project_id =>
  match pyIndex parts ("locations") with
  | Except.error e => Except.error e
  | Except.ok j =>
  match pyGet parts (j + 1) with
  | Except.error e => Except.error e
  | Except.ok location =>
  match pyIndex parts ("reasoningEngines") with
  | Except.error e => Except.error e
  | Except.ok k =>
  match pyGet parts (k + 1) with
  | Except.error e => Except.error e
  | Except.ok reasoning_engine_id =>
    Except.ok (project_id, location, reasoning_engine_id)

/-- Resource-name parsing of `get_vertexai_agent_card` (utils.py lines 87-91):
split on slashes and read the values following the `projects`, `locations`
and `reasoningEngines` keywords. -/
def parseResourceName (reasoning_engine_resource_name : String) :
    Except AgentError (String × String × String) :=
  parseParts (pySplitSlash reasoning_engine_resource_name)

/-- The metadata endpoint constructed at utils.py line 94. -/
def apiEndpoint (project_id location reasoning_engine_id : String) : String :=
  "https://" ++ location ++ "-aiplatform.googleapis.com/v1beta1/projects/" ++
    project_id ++ "/locations/" ++ location ++ "/reasoningEngines/" ++
    reasoning_engine_id

/-- The corrected A2A endpoint URL written over the embedded card URL
(utils.py line 125). -/
def correctUrl (project_id location reasoning_engine_id : String) : String :=
  apiEndpoint project_id location reasoning_engine_id ++ "/a2a"

/-- Error message of utils.py line 119. -/
def cardNotFoundMsg : String :=
  "Could not find A2A agent card in reasoning engine response"

/-- `get_vertexai_agent_card` (utils.py lines 71-135).  `fetch` models the
`httpx` GET of the metadata endpoint together with `raise_for_status` and
`response.json()` (its failures are the transport and non-2xx errors);
`parseCard` models `json.loads` of the embedded card string together with
`AgentCard.model_validate`, whose failures are mapped to
`AgentError.parseError`.  The URL of the parsed card is overwritten with the
corrected endpoint.  Note that a found but empty card string is falsy in
Python (`if not agent_card_str`) and is reported as not found. -/
def get_vertexai_agent_card
    (fetch : String → String → Except AgentError MetadataResponse)
    (parseCard : String → Except String AgentCard)
    (reasoning_engine_resource_name auth_token : String) :
    Except AgentError AgentCard :=
  match parseResourceName reasoning_engine_resource_name with
  | Except.error e => Except.error e
  | Except.ok (project_id, location, reasoning_engine_id) =>
  match fetch (apiEndpoint project_id location reasoning_engine_id) auth_token with
  | Except.error e => Except.error e
  | Except.ok resp =>
  match findAgentCardStr resp with
  | none => Except.error (AgentError.configurationError cardNotFoundMsg)
  | some s =>
    if s.isEmpty then Except.error (AgentError.configurationError cardNotFoundMsg)
    else
      match parseCard s with
      | Except.error m => Except.error (AgentError.parseError m)
      | Except.ok card =>
        Except.ok { card with url := correctUrl project_id location reasoning_engine_id }

/-- The root of a message part: a text part (the part exposes a `text`
attribute) or any other part kind (no `text` attribute).  This is the tagged
form of the `hasattr(part.root, 'text')` duck-typing of utils.py line 240. -/
inductive PartRoot where
  | textPart (text : String)
  | otherPart
deriving Repr, DecidableEq

/-- A message part wrapping its root, as in `Part(root=TextPart(...))`; named
`MsgPart` here because `Part` is taken by the ambient library. -/
structure MsgPart where
  root : PartRoot
deriving Repr, DecidableEq

/-- A reply message carried by a response chunk.  `parts` is `none` when the
`parts` attribute is absent or `None`; an empty list is falsy in Python and is
also skipped by the extraction loop. -/
structure RespMessage where
  parts : Option (List MsgPart)
deriving Repr, DecidableEq

/-- A response chunk.  `message` is `none` when the chunk has no `message`
attribute or it is falsy (utils.py line 237). -/
structure Chunk where
  message : Option RespMessage
deriving Repr, DecidableEq

/-- The outbound message constructed at utils.py lines 219-223. -/
structure OutMessage where
  message_id : String
  role : String
  parts : List MsgPart
deriving Repr, DecidableEq

/-- Default of the `message_id` parameter of `query_a2a_agent`
(utils.py line 203); both adapter pipelines call `query_a2a_agent` without a
`message_id` argument and therefore use this constant. -/
def defaultMessageId : String := "query-message-1"

/-- The single outbound message of `query_a2a_agent` (utils.py lines 219-223):
role `user`, one text part carrying the prompt. -/
def queryMessage (prompt message_id : String) : OutMessage :=
  { message_id := message_id, role := "user",
    parts := [{ root := PartRoot.textPart prompt }] }

/-- The text-extraction loop of `query_a2a_agent` (utils.py lines 233-241),
with the accumulating `response_text` list made explicit.  A chunk without a
truthy `message`, a message without non-empty `parts`, and a part whose root
has no `text` attribute contribute nothing. -/
def extractTexts (chunks : List Chunk) : List String :=
  chunks.foldl
    (fun acc chunk =>
      match chunk.message with
      | none => acc
      | some msg =>
        match msg.parts with
        | none => acc
        | some parts =>
          if parts.isEmpty then acc
          else
            parts.foldl
              (fun acc2 part =>
                match part.root with
                | PartRoot.textPart t => acc2 ++ [t]
                | PartRoot.otherPart => acc2)
              acc)
    []

/-- `query_a2a_agent` (utils.py lines 203-245).  `send_message` models
`a2a_client.send_message` together with the iteration of its reply stream: it
yields the finite list of chunks delivered before the stream either ends
normally (`none`) or raises a transport error (`some e`).  On such an error
the Python loop propagates the exception and the locally accumulated
`full_response` and `response_text` lists are discarded; on normal completion
the function returns the full chunk list and the flattened texts. -/
def query_a2a_agent
    (send_message : OutMessage → List Chunk × Option AgentError)
    (prompt message_id : String) :
    Except AgentError (List Chunk × List String) :=
  let message := queryMessage prompt message_id
  match send_message message with
  | (_, some e) => Except.error e
  | (delivered, none) => Except.ok (delivered, extractTexts delivered)

/-- External dependencies of the Vertex AI A2A inference pipeline
(`_inference_vertexai_a2a_agent`, a2a/agent.py lines 17-67):
the Dataiku connection lookup, `json.loads` of the key material, the
credential refresh (including the opportunistic cloud-platform scope widening,
all vendor code) producing the bearer token, the metadata fetch and card-JSON
parse of `get_vertexai_agent_card`, and the A2A client produced by
`create_a2a_client_from_card` bound to a card and token. -/
structure VertexDeps where
  get_connection_info : String → Except AgentError ConnectionInfo
  jsonLoads : String → Except String ServiceAccountKey
  refreshToken : GcpCredentials → Except AgentError String
  fetch : String → String → Except AgentError MetadataResponse
  parseCard : String → Except String AgentCard
  send_message : AgentCard → String → OutMessage → List Chunk × Option AgentError

/-- `_inference_vertexai_a2a_agent` (a2a/agent.py lines 17-67): connection →
credentials → token refresh → card fetch → client → query. -/
def _inference_vertexai_a2a_agent (deps : VertexDeps)
    (connection_name reasoning_engine_resource_name prompt : String) :
    Except AgentError (List Chunk × List String) :=
  match deps.get_connection_info connection_name with
  | Except.error e => Except.error e
  | Except.ok connection_info =>
  match get_credentials_from_vertexai_connection deps.jsonLoads connection_info with
  | Except.error e => Except.error e
  | Except.ok gcp_credentials =>
  match deps.refreshToken gcp_credentials with
  | Except.error e => Except.error e
  | Except.ok auth_token =>
  match get_vertexai_agent_card deps.fetch deps.parseCard
      reasoning_engine_resource_name auth_token with
  | Except.error e => Except.error e
  | Except.ok agent_card =>
    query_a2a_agent (deps.send_message agent_card auth_token) prompt defaultMessageId

/-- External dependencies of the standard A2A inference pipeline
(`_inference_standard_a2a_agent`, a2a/agent.py lines 70-93):
`get_standard_a2a_agent_card` (the `A2ACardResolver` discovery call, vendor
code) and the A2A client bound to a card and token. -/
structure StandardDeps where
  resolveCard : String → String → Except AgentError AgentCard
  send_message : AgentCard → String → OutMessage → List Chunk × Option AgentError

/-- `_inference_standard_a2a_agent` (a2a/agent.py lines 70-93): card discovery
→ client → query. -/
def _inference_standard_a2a_agent (deps : StandardDeps)
    (api_token agent_base_url prompt : String) :
    Except AgentError (List Chunk × List String) :=
  match deps.resolveCard agent_base_url api_token with
  | Except.error e => Except.error e
  | Except.ok agent_card =>
    query_a2a_agent (deps.send_message agent_card api_token) prompt defaultMessageId

/-- Per-agent configuration mapping of the A2A adapter, each key optional as
under `dict.get`. -/
structure A2AConfig where
  auth_type : Option String
  vertexai_connection : Option String
  reasoning_engine_id : Option String
  api_token : Option String
  agent_base_url : Option String
deriving Repr, DecidableEq

/-- One inbound message record of the host query. -/
structure MessageRecord where
  content : String
deriving Repr, DecidableEq

/-- Inbound query record: the `messages` key may be absent. -/
structure QueryRecord where
  messages : Option (List MessageRecord)
deriving Repr, DecidableEq

/-- The adapter result shape: a single `text` field. -/
structure ProcessResult where
  text : String
deriving Repr, DecidableEq

/-- Python `config.get(key).strip()`: an `AttributeError` on `None` when the
key is absent, otherwise the stripped string. -/
def stripOpt : Option String → Except AgentError String
  | none =>
      Except.error (AgentError.attributeError
        ("NoneType object has no attribute strip"))
  | some s => Except.ok (pyStrip s)

/-- Prompt extraction `query["messages"][-1]["content"]` (a2a/agent.py
line 120 and agent-engine-integration/agent.py line 62): a `KeyError` when the
`messages` key is absent, an `IndexError` on an empty list, otherwise the
content of the last message. -/
def extractPrompt (query : QueryRecord) : Except AgentError String :=
  match query.messages with
  | none => Except.error (AgentError.keyError ("messages"))
  | some [] => Except.error (AgentError.indexError ("list index out of range"))
  | some (m :: ms) => Except.ok ((m :: ms).getLast (List.cons_ne_nil m ms)).content

/-- Combined dependencies of the A2A adapter. -/
structure A2ADeps where
  vertex : VertexDeps
  standard : StandardDeps

/-- The body of the `try` block of `A2AAgent.aprocess` (a2a/agent.py
lines 128-150): dispatch on `auth_type` (default `vertexai`), read the branch
configuration keys with `config.get(...).strip()`, and run the matching
inference pipeline. -/
def a2aAttempt (deps : A2ADeps) (config : A2AConfig) (prompt : String) :
    Except AgentError (List Chunk × List String) :=
  let auth_type := pyStrip (config.auth_type.getD ("vertexai"))
  if auth_type = "vertexai" then
    match stripOpt config.vertexai_connection with
    | Except.error e => Except.error e
    | Except.ok connection_name =>
    match stripOpt config.reasoning_engine_id with
    | Except.error e => Except.error e
    | Except.ok reasoning_engine_resource_name =>
      _inference_vertexai_a2a_agent deps.vertex connection_name
        reasoning_engine_resource_name prompt
  else
    match stripOpt config.api_token with
    | Except.error e => Except.error e
    | Except.ok api_token =>
    match stripOpt config.agent_base_url with
    | Except.error e => Except.error e
    | Except.ok agent_base_url =>
      _inference_standard_a2a_agent deps.standard api_token agent_base_url prompt

/-- `A2AAgent.aprocess` (a2a/agent.py lines 105-168).  The prompt extraction
happens before the `try` block, so its `KeyError` or `IndexError` propagates
to the host framework; every exception raised inside the `try` block is
caught and converted into the success-shaped error text; on success the text
fragments are joined with newlines, with a placeholder when the fragment list
is empty (line 153). -/
def aprocess (deps : A2ADeps) (config : A2AConfig) (query : QueryRecord) :
    Except AgentError ProcessResult :=
  match extractPrompt query with
  | Except.error e => Except.error e
  | Except.ok prompt =>
    match a2aAttempt deps config prompt with
    | Except.ok (_, response_text) =>
        Except.ok { text :=
          if response_text.isEmpty then "No response text received"
          else String.intercalate ("\n") response_text }
    | Except.error e =>
        Except.ok { text := "Error querying A2A agent: " ++ e.str }

/-- Per-agent configuration of the reasoning-engine adapter. -/
structure ReasoningConfig where
  vertexai_connection : Option String
  agent_id : Option String
deriving Repr, DecidableEq

/-- External dependencies of `MyLLM.process`
(agent-engine-integration/agent.py): the Dataiku connection lookup,
`json.loads` of the key material, and the
`ReasoningEngineExecutionServiceClient.query_reasoning_engine` RPC (the
client construction is folded into the RPC dependency), taking the resource
name and the prompt and returning `response.output`, abstracted as a
string. -/
structure ReasoningDeps where
  get_connection_info : String → Except AgentError ConnectionInfo
  jsonLoads : String → Except String ServiceAccountKey
  query_reasoning_engine : String → String → Except AgentError String

/-- `MyLLM.process` (agent-engine-integration/agent.py lines 46-81).  Unlike
`A2AAgent.aprocess`, the body has no `try` block: every exception raised by
the configuration reads, the connection lookup, the credential resolution,
the prompt extraction or the RPC propagates to the host framework. -/
def MyLLM_process (deps : ReasoningDeps) (config : ReasoningConfig)
    (query : QueryRecord) : Except AgentError ProcessResult :=
  match stripOpt config.vertexai_connection with
  | Except.error e => Except.error e
  | Except.ok connection_name =>
  match stripOpt config.agent_id with
  | Except.error e => Except.error e
  | Except.ok agent_resource_name =>
  match deps.get_connection_info connection_name with
  | Except.error e => Except.error e
  | Except.ok connection_info =>
  match get_credentials_from_vertexai_connection deps.jsonLoads connection_info with
  | Except.error e => Except.error e
  | Except.ok _gcp_credentials =>
  match extractPrompt query with
  | Except.error e => Except.error e
  | Except.ok prompt =>
  match deps.query_reasoning_engine agent_resource_name prompt with
  | Except.error e => Except.error e
  | Except.ok output => Except.ok { text := output }

/-- Configuration read by `get_agent_choices.do`, each key optional as under
`dict.get`. -/
structure ChoicesConfig where
  vertexai_connection : Option String
  gcp_project : Option String
  gcp_region : Option String
deriving Repr, DecidableEq

/-- One dropdown choice. -/
structure Choice where
  label : String
  value : String
deriving Repr, DecidableEq

/-- The structure returned by `get_agent_choices.do`: the `choices` list plus
the optional `error` and `message` annotation fields. -/
structure ChoicesResult where
  choices : List Choice
  error : Option String
  message : Option String
deriving Repr, DecidableEq

/-- A reasoning-engine resource as listed by the vendor API: its full
resource `name` and its `display_name` (empty when unset, which is falsy in
Python). -/
structure Engine where
  name : String
  display_name : String
deriving Repr, DecidableEq

/-- External dependencies of `get_agent_choices.do`: the Dataiku connection
lookup, `json.loads` of the key material, and the
`ReasoningEngineServiceClient.list_reasoning_engines` RPC (client
construction, request construction and pager iteration folded in), taking
the parent path. -/
structure ChoicesDeps where
  get_connection_info : String → Except AgentError ConnectionInfo
  jsonLoads : String → Except String ServiceAccountKey
  list_reasoning_engines : String → Except AgentError (List Engine)

/-- Python truthiness of an optional string: `None` and the empty string are
falsy. -/
def truthyOpt : Option String → Bool
  | none => false
  | some s => !s.isEmpty

/-- Python `name.split('/')[-1]`: the last slash-separated segment.
`pySplitSlash` never returns an empty list, so the default is never
used. -/
def lastSegment (s : String) : String :=
  (pySplitSlash s).getLastD s

/-- The choice built for one listed engine (get_agent_choices.py
lines 85-88): label from `display_name` when present and truthy, else the
last segment of the resource name; value always the last segment. -/
def engineChoice (engine : Engine) : Choice :=
  { label :=
      if !engine.display_name.isEmpty then engine.display_name
      else lastSegment engine.name,
    value := lastSegment engine.name }

/-- The content of the outer `try` block of `get_agent_choices.do`
(resource/get_agent_choices.py lines 61-102): connection lookup, credential
resolution and listing; the inner `try` converts listing failures into an
`error` annotation and an empty listing yields a `message` annotation. -/
def choicesBody (deps : ChoicesDeps) (config : ChoicesConfig) :
    Except AgentError ChoicesResult :=
  let gcp_connection_name := config.vertexai_connection
  let gcp_project := config.gcp_project
  let gcp_region := config.gcp_region.getD ("us-central1")
  match deps.get_connection_info (gcp_connection_name.getD ("")) with
  | Except.error e => Except.error e
  | Except.ok connection_info =>
  match get_credentials_from_vertexai_connection deps.jsonLoads connection_info with
  | Except.error e => Except.error e
  | Except.ok _gcp_credentials =>
  let parent :=
    "projects/" ++ gcp_project.getD ("") ++ "/locations/" ++ gcp_region
  match deps.list_reasoning_engines parent with
  | Except.error e =>
      Except.ok
        { choices := [],
          error := some ("Unable to fetch agents from Vertex AI Agent Engine: " ++ e.str),
          message := none }
  | Except.ok engines =>
    let agents_list := engines.map engineChoice
    if agents_list.isEmpty then
      Except.ok
        { choices := [], error := none,
          message := some ("No agents found in the specified project and region") }
    else
      Except.ok { choices := agents_list, error := none, message := none }

/-- `get_agent_choices.do` (resource/get_agent_choices.py lines 34-109), with
the content of its outer `try` block factored as `choicesBody`.  Missing or
empty `vertexai_connection` or `gcp_project` return bare empty choices before
the `try` blocks; the outer `except` converts every exception escaping the
body into an `error` annotation.  Every branch returns normally: the function
never raises. -/
def do_get_agent_choices (deps : ChoicesDeps) (config : ChoicesConfig) :
    Except AgentError ChoicesResult :=
  if !truthyOpt config.vertexai_connection then
    Except.ok { choices := [], error := none, message := none }
  else if !truthyOpt config.gcp_project then
    Except.ok { choices := [], error := none, message := none }
  else
    match choicesBody deps config with
    | Except.ok r => Except.ok r
    | Except.error e =>
        Except.ok
          { choices := [],
            error := some ("Error fetching agents: " ++ e.str), message := none }

/-- Spec-side description of the text carried by one part: the text field of
a text-bearing part, nothing for any other part. -/
def partTextSpec (p : MsgPart) : List String :=
  match p.root with
  | PartRoot.textPart t => [t]
  | PartRoot.otherPart => []

/-- Spec-side description of the texts contributed by one chunk: the texts of
its parts in part order, nothing for a chunk without a truthy message or
without parts. -/
def chunkTextsSpec (c : Chunk) : List String :=
  match c.message with
  | none => []
  | some m =>
    match m.parts with
    | none => []
    | some ps => (ps.map partTextSpec).flatten

/-- Spec-side description of the flattened response text: the concatenation,
in chunk-then-part order, of every text-bearing part's text. -/
def responseTextSpec (chunks : List Chunk) : List String :=
  (chunks.map chunkTextsSpec).flatten

/-- The inner part loop of `extractTexts` appends exactly the texts of the
text-bearing parts. -/
theorem partsFold_eq (parts : List MsgPart) (acc : List String) :
    parts.foldl
      (fun acc2 part =>
        match part.root with
        | PartRoot.textPart t => acc2 ++ [t]
        | PartRoot.otherPart => acc2)
      acc = acc ++ (parts.map partTextSpec).flatten := by
  induction parts generalizing acc with
  | nil => simp
  | cons p ps ih =>
    cases hp : p.root with
    | textPart t => simp [List.foldl, hp, ih, partTextSpec]
    | otherPart => simp [List.foldl, hp, ih, partTextSpec]

/-- One step of the chunk loop of `extractTexts` appends exactly the texts
contributed by that chunk. -/
theorem chunkStep_eq (acc : List String) (c : Chunk) :
    (match c.message with
      | none => acc
      | some msg =>
        match msg.parts with
        | none => acc
        | some parts =>
          if parts.isEmpty then acc
          else
            parts.foldl
              (fun acc2 part =>
                match part.root with
                | PartRoot.textPart t => acc2 ++ [t]
                | PartRoot.otherPart => acc2)
              acc) = acc ++ chunkTextsSpec c := by
  cases hm : c.message with
  | none => simp [chunkTextsSpec, hm]
  | some msg =>
    cases hp : msg.parts with
    | none => simp [chunkTextsSpec, hm, hp]
    | some parts =>
      cases he : parts.isEmpty with
      | true =>
        have hnil : parts = [] := List.isEmpty_iff.mp he
        simp [chunkTextsSpec, hm, hp, he, hnil]
      | false => simp [chunkTextsSpec, hm, hp, he, partsFold_eq]

/-- The extraction loop of `query_a2a_agent` computes the spec-side
flattening. -/
theorem extractTexts_eq (chunks : List Chunk) :
    extractTexts chunks = responseTextSpec chunks := by
  have general : ∀ (cs : List Chunk) (acc : List String),
      cs.foldl
        (fun acc chunk =>
          match chunk.message with
          | none => acc
          | some msg =>
            match msg.parts with
            | none => acc
            | some parts =>
              if parts.isEmpty then acc
              else
                parts.foldl
                  (fun acc2 part =>
                    match part.root with
                    | PartRoot.textPart t => acc2 ++ [t]
                    | PartRoot.otherPart => acc2)
                  acc)
        acc = acc ++ responseTextSpec cs := by
    intro cs
    induction cs with
    | nil => intro acc; simp [responseTextSpec]
    | cons c cs ih =>
      intro acc
      rw [List.foldl_cons, chunkStep_eq acc c, ih]
      simp [responseTextSpec]
  simpa [extractTexts, responseTextSpec] using general chunks []

/-- Claim C2: for every finite chunk sequence delivered by the client,
`query_a2a_agent` returns the full chunk sequence unchanged together with the
flattened response text, equal to the concatenation, in chunk order and then
part order, of the text field of every text-bearing part, where chunks
without a truthy message, messages without non-empty parts, and parts
without a text field contribute nothing. -/
theorem query_a2a_agent_flattens
    (send_message : OutMessage → List Chunk × Option AgentError)
    (prompt message_id : String) (chunks : List Chunk)
    (h : send_message (queryMessage prompt message_id) = (chunks, none)) :
    query_a2a_agent send_message prompt message_id
      = Except.ok (chunks, responseTextSpec chunks) := by
  simp [query_a2a_agent, h, extractTexts_eq]

/-- A chunk carrying one text part. -/
def textChunk (t : String) : Chunk :=
  { message := some { parts := some [{ root := PartRoot.textPart t }] } }

/-- Concrete chunk sequence: two text chunks around a message-less chunk, an
empty-parts chunk, a parts-less chunk and a non-text part. -/
def witnessChunks : List Chunk :=
  [ textChunk ("pong-1"),
    { message := none },
    { message := some { parts := some [] } },
    { message := some { parts := none } },
    { message := some { parts := some [{ root := PartRoot.otherPart }, { root := PartRoot.textPart ("pong-2") }] } } ]

/-- Witness for claim C2 at a concrete chunk sequence. -/
theorem query_a2a_agent_flattens_witness :
    query_a2a_agent (fun _ => (witnessChunks, none)) ("ping") defaultMessageId
      = Except.ok (witnessChunks, ["pong-1", "pong-2"]) := by
  rw [query_a2a_agent_flattens (fun _ => (witnessChunks, none)) ("ping")
    defaultMessageId witnessChunks rfl]
  decide

/-- Claim C7: a transport failure during send or during iteration of the
reply stream makes `query_a2a_agent` raise that error; the fragments
collected before the failure are discarded and the caller observes no
partial result. -/
theorem query_a2a_agent_error_atomic
    (send_message : OutMessage → List Chunk × Option AgentError)
    (prompt message_id : String) (delivered : List Chunk) (e : AgentError)
    (h : send_message (queryMessage prompt message_id) = (delivered, some e)) :
    query_a2a_agent send_message prompt message_id = Except.error e := by
  simp [query_a2a_agent, h]

/-- Witness for claim C7: the stream yields one text chunk and then fails;
the caller sees only the raised error. -/
theorem query_a2a_agent_error_atomic_witness :
    query_a2a_agent
      (fun _ => ([textChunk ("partial")], some (AgentError.networkError ("connection reset"))))
      ("ping") defaultMessageId
      = Except.error (AgentError.networkError ("connection reset")) :=
  query_a2a_agent_error_atomic _ ("ping") defaultMessageId
    [textChunk ("partial")] (AgentError.networkError ("connection reset")) rfl

/-- Claim C9: the single outbound message built by `query_a2a_agent` has role
`user`, exactly one part, a text part carrying the prompt, and the
`message_id` argument as identifier; the default identifier is the constant
`query-message-1`, so every call using the default (as both adapter
pipelines do) sends the same identifier. -/
theorem queryMessage_shape (prompt message_id : String) :
    (queryMessage prompt message_id).role = "user"
    ∧ (queryMessage prompt message_id).parts
        = [{ root := PartRoot.textPart prompt }]
    ∧ (queryMessage prompt message_id).parts.length = 1
    ∧ (queryMessage prompt message_id).message_id = message_id
    ∧ defaultMessageId = "query-message-1"
    ∧ (queryMessage prompt defaultMessageId).message_id = "query-message-1" :=
  ⟨rfl, rfl, rfl, rfl, rfl, rfl⟩

/-- Claim C10: a query record with an empty messages list raises `IndexError`
and one with no messages key raises `KeyError` out of `A2AAgent.aprocess`,
because the prompt extraction precedes the `try` block; no `text` result is
returned to the host framework. -/
theorem aprocess_raises_without_messages (deps : A2ADeps) (config : A2AConfig) :
    aprocess deps config { messages := none }
        = Except.error (AgentError.keyError ("messages"))
    ∧ aprocess deps config { messages := some [] }
        = Except.error (AgentError.indexError ("list index out of range")) :=
  ⟨rfl, rfl⟩

/-- Dependencies for the C1 counterexample: the Dataiku connection lookup
fails with a transport error; the remaining dependencies are immaterial. -/
def c1Deps : ReasoningDeps :=
  { get_connection_info := fun _ => Except.error (AgentError.networkError ("connection refused")),
    jsonLoads := fun _ => Except.error ("invalid json"),
    query_reasoning_engine := fun _ _ => Except.ok ("output") }

/-- Reasoning-engine adapter configuration for the C1 counterexample. -/
def c1Config : ReasoningConfig :=
  { vertexai_connection := some ("my-gcp-connection"), agent_id := some ("engines/1") }

/-- A well-formed one-message query record. -/
def pingQuery : QueryRecord := { messages := some [{ content := "ping" }] }

/-- Counterexample for claim C1: the reasoning-engine adapter `MyLLM.process`
has no top-level exception handler; a failure of the connection lookup in its
credential pipeline propagates as a raised error to the host framework
instead of being converted into a success-shaped text result. -/
theorem myllm_process_propagates :
    MyLLM_process c1Deps c1Config pingQuery
      = Except.error (AgentError.networkError ("connection refused")) := by
  decide

/-- Claim C1 (amended to the A2A adapter): once the prompt has been
extracted, `A2AAgent.aprocess` returns a success-shaped result for every
dependency behavior and configuration, and every exception raised in its
credential, card, client or query pipeline is caught at the top level and
converted into the success-shaped result whose text embeds the raised
error's string, in the format of a2a/agent.py line 164. -/
theorem aprocess_converts_pipeline_errors (deps : A2ADeps) (config : A2AConfig)
    (query : QueryRecord) (prompt : String)
    (h : extractPrompt query = Except.ok prompt) :
    (∃ r, aprocess deps config query = Except.ok r)
    ∧ (∀ e, a2aAttempt deps config prompt = Except.error e →
        aprocess deps config query
          = Except.ok { text := "Error querying A2A agent: " ++ e.str }) := by
  constructor
  · cases ha : a2aAttempt deps config prompt with
    | error e =>
      exact ⟨{ text := "Error querying A2A agent: " ++ e.str }, by simp [aprocess, h, ha]⟩
    | ok v =>
      obtain ⟨full, texts⟩ := v
      exact ⟨{ text :=
          if texts.isEmpty then "No response text received"
          else String.intercalate ("\n") texts }, by simp [aprocess, h, ha]⟩
  · intro e he
    simp [aprocess, h, he]

/-- A2A adapter dependencies whose vertex pipeline fails immediately and
whose standard pipeline succeeds with two text chunks. -/
def a2aDepsPong : A2ADeps :=
  { vertex :=
      { get_connection_info := fun _ => Except.error (AgentError.networkError ("unreachable")),
        jsonLoads := fun _ => Except.error ("invalid json"),
        refreshToken := fun _ => Except.error (AgentError.authError ("refresh failed")),
        fetch := fun _ _ => Except.error (AgentError.networkError ("unreachable")),
        parseCard := fun _ => Except.error ("invalid json"),
        send_message := fun _ _ _ => ([], none) },
    standard :=
      { resolveCard := fun _ _ => Except.ok { url := "https://agent.example", name := "agent", fields := [] },
        send_message := fun _ _ _ => ([textChunk ("pong-1"), textChunk ("pong-2")], none) } }

/-- A2A adapter dependencies whose standard pipeline succeeds with zero
chunks. -/
def a2aDepsEmpty : A2ADeps :=
  { vertex := a2aDepsPong.vertex,
    standard :=
      { resolveCard := a2aDepsPong.standard.resolveCard,
        send_message := fun _ _ _ => ([], none) } }

/-- A2A adapter configuration selecting the standard (non-vertexai)
branch. -/
def a2aConfigStd : A2AConfig :=
  { auth_type := some ("api_token"), vertexai_connection := none,
    reasoning_engine_id := none, api_token := some ("token-1"),
    agent_base_url := some ("https://agent.example") }

/-- A2A adapter configuration selecting the vertexai branch. -/
def a2aConfigVertex : A2AConfig :=
  { auth_type := some ("vertexai"), vertexai_connection := some ("conn"),
    reasoning_engine_id := some ("projects/p/locations/l/reasoningEngines/r"),
    api_token := none, agent_base_url := none }

/-- Witness for claim C1 (amended): with the vertexai branch selected and a
connection lookup failing with `unreachable`, `aprocess` returns the
success-shaped result embedding that error string. -/
theorem aprocess_converts_pipeline_errors_witness :
    aprocess a2aDepsPong a2aConfigVertex pingQuery
      = Except.ok { text := "Error querying A2A agent: unreachable" } := by
  rw [(aprocess_converts_pipeline_errors a2aDepsPong a2aConfigVertex pingQuery
    ("ping") (by decide)).2 (AgentError.networkError ("unreachable")) (by decide)]
  decide

/-- Claim C3: on a successful run, the A2A adapter returns the text fragments
joined with newlines when the fragment list is non-empty and the fixed
placeholder when it is empty. -/
theorem aprocess_formats_success (deps : A2ADeps) (config : A2AConfig)
    (query : QueryRecord) (prompt : String) (chunks : List Chunk)
    (texts : List String)
    (hq : extractPrompt query = Except.ok prompt)
    (ha : a2aAttempt deps config prompt = Except.ok (chunks, texts)) :
    aprocess deps config query
      = Except.ok { text :=
          if texts.isEmpty then "No response text received"
          else String.intercalate ("\n") texts } := by
  simp [aprocess, hq, ha]

/-- A well-formed one-message query record with prompt `hello`. -/
def helloQuery : QueryRecord := { messages := some [{ content := "hello" }] }

/-- Witness for claim C3: two chunks carrying `pong-1` and `pong-2` yield the
newline-joined text, and zero chunks yield the placeholder. -/
theorem aprocess_formats_success_witness :
    aprocess a2aDepsPong a2aConfigStd pingQuery
      = Except.ok { text := "pong-1\npong-2" }
    ∧ aprocess a2aDepsEmpty a2aConfigStd helloQuery
      = Except.ok { text := "No response text received" } := by
  constructor
  · rw [aprocess_formats_success a2aDepsPong a2aConfigStd pingQuery ("ping")
      [textChunk ("pong-1"), textChunk ("pong-2")] (["pong-1", "pong-2"])
      (by decide) (by decide)]
    decide
  · rw [aprocess_formats_success a2aDepsEmpty a2aConfigStd helloQuery ("hello")
      [] ([]) (by decide) (by decide)]
    decide

/-- Claim C4: `get_credentials_from_vertexai_connection` raises
`ConfigurationError` exactly when `authType` is `KEYPAIR` with neither key
field present, `authType` is `OAUTH` with no resolved access token, or
`authType` is any other value (with the error naming that value); for
`KEYPAIR` the inline secret field takes priority over the key-file-path
field; and every non-error run returns a credential object. -/
theorem resolve_credentials_spec
    (jsonLoads : String → Except String ServiceAccountKey)
    (ci : ConnectionInfo) :
    ((∃ msg, get_credentials_from_vertexai_connection jsonLoads ci
        = Except.error (AgentError.configurationError msg))
      ↔ ((ci.authType = "KEYPAIR" ∧ ci.appSecretContent = none ∧ ci.keyPath = none)
        ∨ (ci.authType = "OAUTH" ∧ ci.resolvedOAuth2AccessToken = none)
        ∨ (ci.authType ≠ "KEYPAIR" ∧ ci.authType ≠ "OAUTH")))
    ∧ (∀ s, ci.authType = "KEYPAIR" → ci.appSecretContent = some s →
        get_credentials_from_vertexai_connection jsonLoads ci
          = match jsonLoads s with
            | Except.ok key => Except.ok (GcpCredentials.serviceAccount key)
            | Except.error m => Except.error (AgentError.parseError m))
    ∧ ((ci.authType ≠ "KEYPAIR" ∧ ci.authType ≠ "OAUTH") →
        get_credentials_from_vertexai_connection jsonLoads ci
          = Except.error (AgentError.configurationError
              ("Unsupported authentication type " ++ ci.authType ++ ".")))
    ∧ ((∀ e, get_credentials_from_vertexai_connection jsonLoads ci
          ≠ Except.error e) →
        ∃ c, get_credentials_from_vertexai_connection jsonLoads ci
          = Except.ok c) := by
  refine ⟨?_, ?_, ?_, ?_⟩
  · unfold get_credentials_from_vertexai_connection
    by_cases hk : ci.authType = "KEYPAIR"
    · cases hs : ci.appSecretContent with
      | some keyRaw =>
        cases hj : jsonLoads keyRaw with
        | ok key => simp [hk, hs, hj]
        | error m => simp [hk, hs, hj]
      | none =>
        cases hp : ci.keyPath with
        | some keyRaw =>
          cases hj : jsonLoads keyRaw with
          | ok key => simp [hk, hs, hp, hj]
          | error m => simp [hk, hs, hp, hj]
        | none => simp [hk, hs, hp]
    · by_cases ho : ci.authType = "OAUTH"
      · cases ht : ci.resolvedOAuth2AccessToken with
        | some tok => simp [hk, ho, ht]
        | none => simp [hk, ho, ht]
      · simp [hk, ho]
  · intro s hk hs
    cases hj : jsonLoads s with
    | ok key => simp [get_credentials_from_vertexai_connection, hk, hs, hj]
    | error m => simp [get_credentials_from_vertexai_connection, hk, hs, hj]
  · intro ⟨hk, ho⟩
    simp [get_credentials_from_vertexai_connection, hk, ho]
  · intro h
    cases hr : get_credentials_from_vertexai_connection jsonLoads ci with
    | ok c => exact ⟨c, rfl⟩
    | error e => exact absurd hr (h e)

/-- A `jsonLoads` model that accepts every key string. -/
def acceptingJsonLoads : String → Except String ServiceAccountKey :=
  fun _ => Except.ok { info := [] }

/-- A connection descriptor with an unsupported authentication type. -/
def basicAuthConnection : ConnectionInfo :=
  { authType := "BASIC", appSecretContent := none, keyPath := none,
    resolvedOAuth2AccessToken := none }

/-- Witness for claim C4: an unsupported authentication type yields a
`ConfigurationError` naming the value. -/
theorem resolve_credentials_spec_witness :
    get_credentials_from_vertexai_connection acceptingJsonLoads basicAuthConnection
      = Except.error (AgentError.configurationError
          ("Unsupported authentication type BASIC.")) := by
  rw [(resolve_credentials_spec acceptingJsonLoads basicAuthConnection).2.2.1
    ⟨by decide, by decide⟩]
  decide

/-- Claim C5: for every metadata response whose first card-carrying entry
holds a non-empty embedded agent-card JSON string that parses, and every
resource name whose components parse, `get_vertexai_agent_card` returns the
parsed card with its URL field overwritten by the corrected endpoint built
from the `(project, location, engine_id)` components, regardless of the URL
embedded in the source JSON. -/
theorem fetch_cloud_agent_card_url
    (fetch : String → String → Except AgentError MetadataResponse)
    (parseCard : String → Except String AgentCard)
    (name token project_id location engine_id : String)
    (resp : MetadataResponse) (s : String) (card : AgentCard)
    (hn : parseResourceName name = Except.ok (project_id, location, engine_id))
    (hf : fetch (apiEndpoint project_id location engine_id) token = Except.ok resp)
    (hs : findAgentCardStr resp = some s)
    (hne : s.isEmpty = false)
    (hp : parseCard s = Except.ok card) :
    get_vertexai_agent_card fetch parseCard name token
      = Except.ok { card with url := correctUrl project_id location engine_id } := by
  simp [get_vertexai_agent_card, hn, hf, hs, hne, hp]

/-- Metadata response for the C5 witness: the card entry is second in the
method list. -/
def c5Response : MetadataResponse :=
  { spec := some
      { classMethods := some [{ a2a_agent_card := none }, { a2a_agent_card := some ("{}") }] } }

/-- Card parser for the C5 witness: it yields a card whose embedded URL is
wrong, to be overwritten. -/
def c5ParseCard : String → Except String AgentCard :=
  fun _ => Except.ok { url := "https://wrong.example", name := "agent", fields := [] }

/-- Fetch model for the C5 witness. -/
def c5Fetch : String → String → Except AgentError MetadataResponse :=
  fun _ _ => Except.ok c5Response

/-- Witness for claim C5 at a concrete resource name and response: the
returned URL is the corrected endpoint, not the embedded one. -/
theorem fetch_cloud_agent_card_url_witness :
    get_vertexai_agent_card c5Fetch c5ParseCard
      ("projects/my-project/locations/us-central1/reasoningEngines/123") ("tok")
      = Except.ok
          { url := correctUrl ("my-project") ("us-central1") ("123"),
            name := "agent", fields := [] } := by
  rw [fetch_cloud_agent_card_url c5Fetch c5ParseCard
    ("projects/my-project/locations/us-central1/reasoningEngines/123") ("tok")
    ("my-project") ("us-central1") ("123") c5Response ("{}")
    { url := "https://wrong.example", name := "agent", fields := [] }
    (by decide) (by decide) (by decide) (by decide) (by decide)]

/-- One expected path segment is missing from the split resource name: the
keyword is absent, or it is present (at its first occurrence) but is the
final segment, so no value follows it. -/
def segMissing (parts : List String) (x : String) : Bool :=
  match listIndexAux x parts 0 with
  | none => true
  | some i => decide (parts.length ≤ i + 1)

/-- The resource name lacks one of the expected path segments `projects`,
`locations`, `reasoningEngines` followed by their values. -/
def lacksSegments (name : String) : Bool :=
  segMissing (pySplitSlash name) ("projects")
    || segMissing (pySplitSlash name) ("locations")
    || segMissing (pySplitSlash name) ("reasoningEngines")

/-- A missing segment makes the keyword lookup or the value read fail with a
configuration error. -/
theorem segMissing_error (parts : List String) (x : String)
    (h : segMissing parts x = true) :
    (∃ m, pyIndex parts x = Except.error (AgentError.configurationError m))
    ∨ (∃ i, pyIndex parts x = Except.ok i
        ∧ pyGet parts (i + 1)
          = Except.error (AgentError.configurationError ("list index out of range"))) := by
  unfold segMissing at h
  cases hi : listIndexAux x parts 0 with
  | none => exact Or.inl ⟨x ++ " is not in list", by simp [pyIndex, hi]⟩
  | some i =>
    rw [hi] at h
    have hle : parts.length ≤ i + 1 := of_decide_eq_true h
    refine Or.inr ⟨i, by simp [pyIndex, hi], ?_⟩
    have hnlt : ¬ (i + 1 < parts.length) := by omega
    simp [pyGet, hnlt]

/-- A present segment makes the keyword lookup and the value read succeed. -/
theorem segMissing_ok (parts : List String) (x : String)
    (h : segMissing parts x = false) :
    ∃ i, pyIndex parts x = Except.ok i
      ∧ ∃ v, pyGet parts (i + 1) = Except.ok v := by
  unfold segMissing at h
  cases hi : listIndexAux x parts 0 with
  | none => rw [hi] at h; cases h
  | some i =>
    rw [hi] at h
    have hlt : i + 1 < parts.length := by
      have := of_decide_eq_false h
      omega
    exact ⟨i, by simp [pyIndex, hi], ⟨parts.get ⟨i + 1, hlt⟩, by simp [pyGet, hlt]⟩⟩

/-- When some expected segment is missing, `parseParts` fails with a
configuration error. -/
theorem parseParts_config_of_missing (parts : List String)
    (h : (segMissing parts ("projects") || segMissing parts ("locations")
        || segMissing parts ("reasoningEngines")) = true) :
    ∃ msg, parseParts parts = Except.error (AgentError.configurationError msg) := by
  by_cases h1 : segMissing parts ("projects") = true
  · rcases segMissing_error parts ("projects") h1 with ⟨m, hm⟩ | ⟨i, hok, hget⟩
    · exact ⟨m, by simp [parseParts, hm]⟩
    · exact ⟨"list index out of range", by simp [parseParts, hok, hget]⟩
  · have h1f : segMissing parts ("projects") = false := by simpa using h1
    obtain ⟨i, hok1, v1, hget1⟩ := segMissing_ok parts ("projects") h1f
    by_cases h2 : segMissing parts ("locations") = true
    · rcases segMissing_error parts ("locations") h2 with ⟨m, hm⟩ | ⟨j, hok, hget⟩
      · exact ⟨m, by simp [parseParts, hok1, hget1, hm]⟩
      · exact ⟨"list index out of range", by simp [parseParts, hok1, hget1, hok, hget]⟩
    · have h2f : segMissing parts ("locations") = false := by simpa using h2
      obtain ⟨j, hok2, v2, hget2⟩ := segMissing_ok parts ("locations") h2f
      have h3 : segMissing parts ("reasoningEngines") = true := by
        simpa [h1f, h2f] using h
      rcases segMissing_error parts ("reasoningEngines") h3 with ⟨m, hm⟩ | ⟨k, hok, hget⟩
      · exact ⟨m, by simp [parseParts, hok1, hget1, hok2, hget2, hm]⟩
      · exact ⟨"list index out of range",
          by simp [parseParts, hok1, hget1, hok2, hget2, hok, hget]⟩

/-- When no expected segment is missing, `parseParts` succeeds. -/
theorem parseParts_ok (parts : List String)
    (h1 : segMissing parts ("projects") = false)
    (h2 : segMissing parts ("locations") = false)
    (h3 : segMissing parts ("reasoningEngines") = false) :
    ∃ p l r, parseParts parts = Except.ok (p, l, r) := by
  obtain ⟨i, hok1, v1, hget1⟩ := segMissing_ok parts ("projects") h1
  obtain ⟨j, hok2, v2, hget2⟩ := segMissing_ok parts ("locations") h2
  obtain ⟨k, hok3, v3, hget3⟩ := segMissing_ok parts ("reasoningEngines") h3
  exact ⟨v1, v2, v3, by simp [parseParts, hok1, hget1, hok2, hget2, hok3, hget3]⟩

/-- Claim C6: `get_vertexai_agent_card` fails with `ConfigurationError`
whenever the resource name lacks an expected path segment (`projects`,
`locations`, `reasoningEngines` followed by their values), and fails with
`ConfigurationError` whenever the fetched metadata response carries no
embedded agent-card entry. -/
theorem fetch_cloud_agent_card_failures
    (fetch : String → String → Except AgentError MetadataResponse)
    (parseCard : String → Except String AgentCard)
    (name token : String) (resp : MetadataResponse) :
    (lacksSegments name = true →
      ∃ msg, get_vertexai_agent_card fetch parseCard name token
        = Except.error (AgentError.configurationError msg))
    ∧ ((∀ ep tk, fetch ep tk = Except.ok resp) → findAgentCardStr resp = none →
      ∃ msg, get_vertexai_agent_card fetch parseCard name token
        = Except.error (AgentError.configurationError msg)) := by
  have part1 : lacksSegments name = true →
      ∃ msg, get_vertexai_agent_card fetch parseCard name token
        = Except.error (AgentError.configurationError msg) := by
    intro h
    obtain ⟨msg, hm⟩ := parseParts_config_of_missing (pySplitSlash name)
      (by simpa [lacksSegments] using h)
    exact ⟨msg, by simp [get_vertexai_agent_card, parseResourceName, hm]⟩
  refine ⟨part1, ?_⟩
  intro hf hc
  by_cases hl : lacksSegments name = true
  · exact part1 hl
  · have hl' : lacksSegments name = false := by simpa using hl
    obtain ⟨⟨hs1, hs2⟩, hs3⟩ :
        (segMissing (pySplitSlash name) ("projects") = false
          ∧ segMissing (pySplitSlash name) ("locations") = false)
        ∧ segMissing (pySplitSlash name) ("reasoningEngines") = false := by
      simpa [lacksSegments] using hl'
    obtain ⟨p, l, r, hok⟩ := parseParts_ok (pySplitSlash name) hs1 hs2 hs3
    exact ⟨cardNotFoundMsg,
      by simp [get_vertexai_agent_card, parseResourceName, hok, hf, hc]⟩

/-- Metadata response without any embedded agent-card entry. -/
def c6RespNoCard : MetadataResponse := { spec := none }

/-- Card parser for the C6 witness (never reached). -/
def c6ParseCard : String → Except String AgentCard :=
  fun _ => Except.ok { url := "https://x.example", name := "a", fields := [] }

/-- Fetch model for the C6 witness, returning a response without a card. -/
def c6Fetch : String → String → Except AgentError MetadataResponse :=
  fun _ _ => Except.ok c6RespNoCard

/-- Witness for claim C6: a resource name without the expected segments, and
a metadata response without an agent-card entry, both yield a
`ConfigurationError`. -/
theorem fetch_cloud_agent_card_failures_witness :
    (∃ msg, get_vertexai_agent_card c6Fetch c6ParseCard ("malformed-name") ("tok")
      = Except.error (AgentError.configurationError msg))
    ∧ (∃ msg, get_vertexai_agent_card c6Fetch c6ParseCard
        ("projects/p/locations/l/reasoningEngines/r") ("tok")
      = Except.error (AgentError.configurationError msg)) := by
  constructor
  · exact (fetch_cloud_agent_card_failures c6Fetch c6ParseCard
      ("malformed-name") ("tok") c6RespNoCard).1 (by decide)
  · exact (fetch_cloud_agent_card_failures c6Fetch c6ParseCard
      ("projects/p/locations/l/reasoningEngines/r") ("tok") c6RespNoCard).2
      (fun _ _ => rfl) (by decide)

/-- Choices dependencies whose connection lookup fails. -/
def c8Deps : ChoicesDeps :=
  { get_connection_info := fun _ => Except.error (AgentError.networkError ("api down")),
    jsonLoads := fun _ => Except.error ("invalid json"),
    list_reasoning_engines := fun _ => Except.ok [] }

/-- Choices configuration with the connection name missing. -/
def c8ConfigNoConn : ChoicesConfig :=
  { vertexai_connection := none, gcp_project := some ("proj"), gcp_region := none }

/-- Choices configuration with connection name and project present. -/
def c8ConfigOk : ChoicesConfig :=
  { vertexai_connection := some ("conn"), gcp_project := some ("proj"),
    gcp_region := none }

/-- Counterexample for claim C8: when the required connection-name parameter
is missing, `get_agent_choices.do` returns an empty-choices structure with
neither an `error` nor a `message` annotation, so not every failure path
annotates the structure. -/
theorem get_agent_choices_bare_empty :
    do_get_agent_choices c8Deps c8ConfigNoConn
      = Except.ok { choices := [], error := none, message := none } := by
  decide

/-- Claim C8 (amended): `get_agent_choices.do` never raises; the
exception-caught failure paths annotate the empty-choices structure with an
`error` field and an empty listing annotates it with a `message` field, but
the missing-required-parameter validation paths return bare empty choices
with no annotation. -/
theorem get_agent_choices_total (deps : ChoicesDeps) (config : ChoicesConfig) :
    (∃ r, do_get_agent_choices deps config = Except.ok r)
    ∧ (truthyOpt config.vertexai_connection = false →
        do_get_agent_choices deps config
          = Except.ok { choices := [], error := none, message := none })
    ∧ (truthyOpt config.vertexai_connection = true →
        truthyOpt config.gcp_project = false →
        do_get_agent_choices deps config
          = Except.ok { choices := [], error := none, message := none })
    ∧ (∀ e, truthyOpt config.vertexai_connection = true →
        truthyOpt config.gcp_project = true →
        choicesBody deps config = Except.error e →
        do_get_agent_choices deps config
          = Except.ok
              { choices := [],
                error := some ("Error fetching agents: " ++ e.str),
                message := none })
    ∧ (∀ ci e,
        deps.get_connection_info (config.vertexai_connection.getD ("")) = Except.ok ci →
        (∃ c, get_credentials_from_vertexai_connection deps.jsonLoads ci = Except.ok c) →
        deps.list_reasoning_engines
            ("projects/" ++ config.gcp_project.getD ("") ++ "/locations/"
              ++ config.gcp_region.getD ("us-central1")) = Except.error e →
        choicesBody deps config
          = Except.ok
              { choices := [],
                error := some ("Unable to fetch agents from Vertex AI Agent Engine: " ++ e.str),
                message := none })
    ∧ (∀ ci,
        deps.get_connection_info (config.vertexai_connection.getD ("")) = Except.ok ci →
        (∃ c, get_credentials_from_vertexai_connection deps.jsonLoads ci = Except.ok c) →
        deps.list_reasoning_engines
            ("projects/" ++ config.gcp_project.getD ("") ++ "/locations/"
              ++ config.gcp_region.getD ("us-central1")) = Except.ok [] →
        choicesBody deps config
          = Except.ok
              { choices := [], error := none,
                message := some ("No agents found in the specified project and region") }) := by
  refine ⟨?_, ?_, ?_, ?_, ?_, ?_⟩
  · by_cases h1 : truthyOpt config.vertexai_connection = true
    · by_cases h2 : truthyOpt config.gcp_project = true
      · cases hb : choicesBody deps config with
        | ok r => exact ⟨r, by simp [do_get_agent_choices, h1, h2, hb]⟩
        | error e =>
          exact ⟨ChoicesResult.mk [] (some ("Error fetching agents: " ++ e.str)) none,
            by simp [do_get_agent_choices, h1, h2, hb]⟩
      · have h2f : truthyOpt config.gcp_project = false := by simpa using h2
        exact ⟨{ choices := [], error := none, message := none },
          by simp [do_get_agent_choices, h1, h2f]⟩
    · have h1f : truthyOpt config.vertexai_connection = false := by simpa using h1
      exact ⟨{ choices := [], error := none, message := none },
        by simp [do_get_agent_choices, h1f]⟩
  · intro h
    simp [do_get_agent_choices, h]
  · intro h1 h2
    simp [do_get_agent_choices, h1, h2]
  · intro e h1 h2 hb
    simp [do_get_agent_choices, h1, h2, hb]
  · intro ci e hci hc hl
    obtain ⟨c, hc⟩ := hc
    simp [choicesBody, hci, hc, hl]
  · intro ci hci hc hl
    obtain ⟨c, hc⟩ := hc
    simp [choicesBody, hci, hc, hl]

/-- Witness for claim C8 (amended): a failing connection lookup is caught
and annotated with an `error` field. -/
theorem get_agent_choices_total_witness :
    do_get_agent_choices c8Deps c8ConfigOk
      = Except.ok
          { choices := [], error := some ("Error fetching agents: api down"),
            message := none } := by
  rw [(get_agent_choices_total c8Deps c8ConfigOk).2.2.2.1
    (AgentError.networkError ("api down")) (by decide) (by decide) (by decide)]
  decide
